import Mathlib

/-!
Shallow embedding of the LinkedIn-Extension safety core
(warm-up protocol, cooldown manager, detection system, humanization engine),
translated from:

  * src/unnamed/part_002  (WarmupProtocol, CooldownManager)
  * src/unnamed/part_004  (DetectionSystem)
  * src/unnamed/part_005  (shared type definitions)
  * src/src/core/humanization-engine.ts (HumanizationEngine)

Conventions of the embedding:

  * TypeScript string enums whose runtime values can fall outside the
    declared set — `AccountAge`, which comes from user configuration and
    persisted storage and is compared with `===` against string constants —
    are modelled as `String`, with one Lean constant per declared value.
    `SpeedMode` and the signal kinds are closed in every code path the
    claims touch, so they become Lean inductives.
  * JS numbers that the code only ever compares and adds/subtracts are
    modelled as `Int`; the delay computation, which multiplies by
    fractional multipliers, is modelled over `Rat`.
  * JS `Infinity` (the under-3-months warm-up length) is modelled as
    `none : Option Int`; its template-string rendering is "Infinity".
  * `Date.now()`, the DOM, and `chrome.storage.local` are explicit
    parameters (a timestamp, a `Dom` record, a `LocalStorage` record).
  * The untyped `details` bag of a `DetectionSignal` is not modelled; the
    kind, severity, message, and timestamp fields are.
-/

namespace LinkedInExt

/-! ## Shared types (src/unnamed/part_005) -/

/-- The five-step severity scale of `AlertLevel` (part_005 lines 3-9). -/
inductive AlertLevel where
  | DEFCON1
  | DEFCON2
  | DEFCON3
  | DEFCON4
  | DEFCON5
deriving DecidableEq, Repr

/-- The four speed tiers of `SpeedMode` (part_005 lines 20-25). -/
inductive SpeedMode where
  | ULTRA_SLOW
  | SLOW
  | MEDIUM
  | NORMAL
deriving DecidableEq, Repr

/-- Runtime string value of each declared `AccountAge` enum member
(part_005 lines 27-33).  The type itself is modelled as `String` because
the value reaches `WarmupProtocol` from configuration storage. -/
def UNDER_3_MONTHS : String := "UNDER_3_MONTHS"

def THREE_TO_SIX_MONTHS : String := "THREE_TO_SIX_MONTHS"

def SIX_TO_TWELVE_MONTHS : String := "SIX_TO_TWELVE_MONTHS"

def ONE_TO_TWO_YEARS : String := "ONE_TO_TWO_YEARS"

def OVER_TWO_YEARS : String := "OVER_TWO_YEARS"

/-- The list of all declared `AccountAge` values. -/
def knownAccountAges : List String :=
  [UNDER_3_MONTHS, THREE_TO_SIX_MONTHS, SIX_TO_TWELVE_MONTHS,
   ONE_TO_TWO_YEARS, OVER_TWO_YEARS]

/-- `WarmupConfig` (part_005 lines 82-89). -/
structure WarmupConfig where
  maxActionsPerDay : Int
  maxCommentsPerDay : Int
  minActionSpread : Int
  allowedSpeed : List SpeedMode
  restrictedToConnections : Int
  requiresManualApproval : Bool
deriving DecidableEq, Repr

/-! ## WarmupProtocol (src/unnamed/part_002) -/

/-- `WarmupProtocol.calculateCurrentDay` (part_002 lines 41-44):
`Math.floor((now - warmupStartDate) / (1000*60*60*24)) + 1`.
`Int.fdiv` is JS `Math.floor` of the real quotient. -/
def calculateCurrentDay (warmupStartDate now : Int) : Int :=
  (now - warmupStartDate).fdiv (1000 * 60 * 60 * 24) + 1

/-- `WarmupProtocol.getTotalWarmupDays` (part_002 lines 49-64).
`none` models the JS `Infinity` returned for the under-3-months tier;
the `switch` default returns 14. -/
def getTotalWarmupDays (accountAge : String) : Option Int :=
  if accountAge = UNDER_3_MONTHS then none
  else if accountAge = THREE_TO_SIX_MONTHS then some 28
  else if accountAge = SIX_TO_TWELVE_MONTHS then some 14
  else if accountAge = ONE_TO_TWO_YEARS then some 7
  else if accountAge = OVER_TWO_YEARS then some 3
  else some 14

/-- Template-string rendering of `getTotalWarmupDays` (JS prints the
number, and prints `Infinity` as "Infinity"). -/
def totalWarmupDaysText (accountAge : String) : String :=
  match getTotalWarmupDays accountAge with
  | none => "Infinity"
  | some n => toString n

/-- `WarmupProtocol.getWarmupConfig` (part_002 lines 69-185): the
if-chain on account age and current day, ending in the default fallback
config (lines 177-184). -/
def getWarmupConfig (accountAge : String) (currentDay : Int) : WarmupConfig :=
  if accountAge = UNDER_3_MONTHS then
    { maxActionsPerDay := 0, maxCommentsPerDay := 0, minActionSpread := 24,
      allowedSpeed := [], restrictedToConnections := 1,
      requiresManualApproval := true }
  else if accountAge = THREE_TO_SIX_MONTHS then
    if currentDay ≤ 7 then
      { maxActionsPerDay := 5, maxCommentsPerDay := 0, minActionSpread := 6,
        allowedSpeed := [SpeedMode.ULTRA_SLOW], restrictedToConnections := 1,
        requiresManualApproval := true }
    else if currentDay ≤ 14 then
      { maxActionsPerDay := 10, maxCommentsPerDay := 1, minActionSpread := 5,
        allowedSpeed := [SpeedMode.ULTRA_SLOW, SpeedMode.SLOW],
        restrictedToConnections := 2, requiresManualApproval := false }
    else if currentDay ≤ 21 then
      { maxActionsPerDay := 15, maxCommentsPerDay := 2, minActionSpread := 4,
        allowedSpeed := [SpeedMode.SLOW], restrictedToConnections := 2,
        requiresManualApproval := false }
    else
      { maxActionsPerDay := 25, maxCommentsPerDay := 3, minActionSpread := 4,
        allowedSpeed := [SpeedMode.SLOW, SpeedMode.MEDIUM],
        restrictedToConnections := 3, requiresManualApproval := false }
  else if accountAge = SIX_TO_TWELVE_MONTHS then
    if currentDay ≤ 7 then
      { maxActionsPerDay := 15, maxCommentsPerDay := 3, minActionSpread := 4,
        allowedSpeed := [SpeedMode.SLOW], restrictedToConnections := 3,
        requiresManualApproval := false }
    else
      { maxActionsPerDay := 30, maxCommentsPerDay := 7, minActionSpread := 3,
        allowedSpeed := [SpeedMode.SLOW, SpeedMode.MEDIUM],
        restrictedToConnections := 3, requiresManualApproval := false }
  else if accountAge = ONE_TO_TWO_YEARS then
    { maxActionsPerDay := 40, maxCommentsPerDay := 10, minActionSpread := 3,
      allowedSpeed := [SpeedMode.SLOW, SpeedMode.MEDIUM, SpeedMode.NORMAL],
      restrictedToConnections := 3, requiresManualApproval := false }
  else if accountAge = OVER_TWO_YEARS then
    { maxActionsPerDay := 60, maxCommentsPerDay := 15, minActionSpread := 3,
      allowedSpeed := [SpeedMode.SLOW, SpeedMode.MEDIUM, SpeedMode.NORMAL],
      restrictedToConnections := 3, requiresManualApproval := false }
  else
    { maxActionsPerDay := 20, maxCommentsPerDay := 5, minActionSpread := 4,
      allowedSpeed := [SpeedMode.SLOW], restrictedToConnections := 2,
      requiresManualApproval := false }

/-- The default fallback configuration of `getWarmupConfig`
(part_002 lines 177-184). -/
def fallbackWarmupConfig : WarmupConfig :=
  { maxActionsPerDay := 20, maxCommentsPerDay := 5, minActionSpread := 4,
    allowedSpeed := [SpeedMode.SLOW], restrictedToConnections := 2,
    requiresManualApproval := false }

/-- The action kinds accepted by `canPerformAction`. -/
inductive ActionKind where
  | like
  | comment
  | view
deriving DecidableEq, Repr

/-- Result record of `canPerformAction`. -/
structure ActionCheck where
  allowed : Bool
  reason : Option String
deriving DecidableEq, Repr

/-- JS rendering of a `SpeedMode` value (they are string enum members). -/
def speedModeText : SpeedMode → String
  | SpeedMode.ULTRA_SLOW => "ULTRA_SLOW"
  | SpeedMode.SLOW => "SLOW"
  | SpeedMode.MEDIUM => "MEDIUM"
  | SpeedMode.NORMAL => "NORMAL"

/-- JS join of `allowedSpeed` with a comma-space separator. -/
def speedListText (l : List SpeedMode) : String :=
  String.intercalate ", " (l.map speedModeText)

/-- `WarmupProtocol.getConnectionDegreeText` (part_002 lines 393-397). -/
def getConnectionDegreeText (degree : Int) : String :=
  if degree = 1 then "1st-degree connections only"
  else if degree = 2 then "1st & 2nd-degree connections"
  else "all connections"

/-- `WarmupProtocol.canPerformAction` (part_002 lines 272-322): the
ordered rule chain over the config computed from (account age, current
day).  Each JS comparison is transcribed directly
(`actionsToday >= config.maxActionsPerDay` becomes
`config.maxActionsPerDay ≤ actionsToday`, and so on). -/
def canPerformAction (accountAge : String) (currentDay : Int)
    (actionType : ActionKind) (actionsToday commentsToday : Int)
    (connectionDegree : Int) (currentSpeed : SpeedMode) : ActionCheck :=
  let config := getWarmupConfig accountAge currentDay
  if config.maxActionsPerDay ≤ actionsToday then
    { allowed := false,
      reason := some ("Daily action limit reached (" ++
        toString config.maxActionsPerDay ++ "). Warm-up Day " ++
        toString currentDay ++ "/" ++ totalWarmupDaysText accountAge ++ ".") }
  else if actionType = ActionKind.comment ∧
      config.maxCommentsPerDay ≤ commentsToday then
    { allowed := false,
      reason := some ("Daily comment limit reached (" ++
        toString config.maxCommentsPerDay ++ ").") }
  else if actionType = ActionKind.comment ∧ config.maxCommentsPerDay = 0 then
    { allowed := false,
      reason := some "Comments disabled during early warm-up phase (too risky for new accounts)." }
  else if config.restrictedToConnections < connectionDegree then
    { allowed := false,
      reason := some ("Can only engage with " ++
        getConnectionDegreeText config.restrictedToConnections ++
        " during warm-up.") }
  else if (config.allowedSpeed.contains currentSpeed) = false then
    { allowed := false,
      reason := some ("Speed mode \x27" ++ speedModeText currentSpeed ++
        "\x27 not allowed. Use: " ++ speedListText config.allowedSpeed ++ ".") }
  else
    { allowed := true, reason := none }

/-- `WarmupProtocol.getPostWarmupLimits` (part_002 lines 363-388).
`daysSinceWarmupEnd = currentDay - getTotalWarmupDays()` is transcribed
with the finite totals (28 and 14) of the two branches that read it; in
every other branch the source never uses the subtraction (for the
under-3-months tier it would be `-Infinity`) and returns 100% directly. -/
def getPostWarmupLimits (accountAge : String) (currentDay : Int) :
    Int × Int :=
  if accountAge = THREE_TO_SIX_MONTHS then
    let daysSinceWarmupEnd := currentDay - 28
    if daysSinceWarmupEnd ≤ 30 then (60, 60)
    else if daysSinceWarmupEnd ≤ 60 then (80, 80)
    else (100, 100)
  else if accountAge = SIX_TO_TWELVE_MONTHS then
    let daysSinceWarmupEnd := currentDay - 14
    if daysSinceWarmupEnd ≤ 30 then (75, 75)
    else (100, 100)
  else (100, 100)

/-! ## CooldownManager (src/unnamed/part_002 lines 459-522)

`chrome.storage.local` is modelled as an explicit record of the keys the
class reads and writes; an absent key is `none`. -/

/-- The `chrome.storage.local` keys touched by `CooldownManager`. -/
structure LocalStorage where
  cooldownEnd : Option Int
  cooldownReason : Option String
  automationEnabled : Option Bool
  warningCount : Option Int
deriving DecidableEq, Repr

/-- `CooldownManager.getWarningCount` (part_002 lines 500-503):
`data.warningCount || 0` — an absent key reads as 0 (and a stored 0 is
also falsy, so it likewise reads as 0). -/
def getWarningCount (st : LocalStorage) : Int :=
  st.warningCount.getD 0

/-- `CooldownManager.enable48HourCooldown` (part_002 lines 487-495): one
`chrome.storage.local.set` writing the expiry (`now + 48*60*60*1000`),
the reason, `automationEnabled: false`, and the incremented counter. -/
def enable48HourCooldown (now : Int) (reason : String)
    (st : LocalStorage) : LocalStorage :=
  { st with
    cooldownEnd := some (now + 48 * 60 * 60 * 1000),
    cooldownReason := some reason,
    automationEnabled := some false,
    warningCount := some (getWarningCount st + 1) }

/-- `CooldownManager.hasPermanentRestrictions` (part_002 lines 508-511):
`count >= 2`. -/
def hasPermanentRestrictions (st : LocalStorage) : Bool :=
  decide (2 ≤ getWarningCount st)

/-- `CooldownManager.getRestrictionMultiplier` (part_002 lines 516-521),
as a rational. -/
def getRestrictionMultiplier (st : LocalStorage) : Rat :=
  let count := getWarningCount st
  if count = 0 then 1
  else if count = 1 then 3 / 4
  else 1 / 2

/-! ## DetectionSystem (src/unnamed/part_004) -/

/-- The `type` field of a `DetectionSignal`
(part_005 line 75: warning | error | performance | pattern). -/
inductive SignalKind where
  | warning
  | error
  | performance
  | pattern
deriving DecidableEq, Repr

/-- `DetectionSignal` (part_005 lines 74-80) without the untyped
`details` bag. -/
structure DetectionSignal where
  type : SignalKind
  severity : AlertLevel
  message : String
  timestamp : Int
deriving DecidableEq, Repr

/-- `WARNING_PATTERNS` (part_004 lines 22-33). -/
def WARNING_PATTERNS : List String :=
  ["You\x27re doing this too often",
   "Slow down",
   "Unusual activity",
   "We noticed some unusual activity",
   "Something went wrong",
   "Security check required",
   "Verify you\x27re human",
   "Too many requests",
   "Rate limit",
   "Temporarily restricted"]

/-- `WARNING_SELECTORS` (part_004 lines 36-45). -/
def WARNING_SELECTORS : List String :=
  [".artdeco-modal__content",
   ".artdeco-toasts__toast",
   ".security-challenge-container",
   "[data-test=\x22rate-limit-message\x22]",
   ".artdeco-inline-feedback",
   ".artdeco-modal--layer-default",
   ".error-modal",
   ".msg-overlay-bubble-header"]

/-- The selectors probed by `detectCaptcha` (part_004 lines 351-357). -/
def captchaSelectors : List String :=
  ["iframe[src*=\x22recaptcha\x22]",
   "iframe[src*=\x22captcha\x22]",
   ".g-recaptcha",
   "#px-captcha",
   ".security-challenge-container"]

/-- `needle` occurs at the head of `hay` (character-wise). -/
def charsStartWith : List Char → List Char → Bool
  | [], _ => true
  | _ :: _, [] => false
  | a :: as, b :: bs => a == b && charsStartWith as bs

/-- JS `String.prototype.includes` on character lists. -/
def charsInclude (needle : List Char) : List Char → Bool
  | [] => needle.isEmpty
  | c :: rest => charsStartWith needle (c :: rest) || charsInclude needle rest

/-- JS `hay.includes(needle)`. -/
def jsIncludes (hay needle : String) : Bool :=
  charsInclude needle.data hay.data

/-- The page state read by the DOM tier of `DetectionSystem`:
`queryTexts sel` is the list of `textContent`s of the elements matching
`sel` (`querySelectorAll`), `actionButtonsDisabled` records, per
like/comment control on the page, whether it is disabled,
`locationHref` is `window.location.href`, and `now` is `Date.now()`. -/
structure Dom where
  queryTexts : String → List String
  actionButtonsDisabled : List Bool
  locationHref : String
  now : Int

/-- `DetectionSystem.detectCaptcha` (part_004 lines 350-360):
`captchaSelectors.some(sel => document.querySelector(sel) !== null)`. -/
def detectCaptcha (dom : Dom) : Bool :=
  captchaSelectors.any (fun sel => !(dom.queryTexts sel).isEmpty)

/-- `DetectionSystem.detectDisabledActions` (part_004 lines 365-376):
count the disabled like/comment controls and compare
`disabledCount > actionButtons.length * 0.5` (exact on integer counts:
`2 * disabledCount > length`). -/
def detectDisabledActions (dom : Dom) : Bool :=
  let disabledCount := (dom.actionButtonsDisabled.filter (· = true)).length
  decide (dom.actionButtonsDisabled.length < 2 * disabledCount)

/-- `DetectionSystem.detectDOMWarnings` (part_004 lines 65-129): the
warning-phrase sweep over `WARNING_SELECTORS` x element texts x
`WARNING_PATTERNS` (lowercased `includes`), then the CAPTCHA check, the
disabled-controls check, and the checkpoint-URL check, pushed in source
order. -/
def detectDOMWarnings (dom : Dom) : List DetectionSignal :=
  let patternSignals :=
    WARNING_SELECTORS.flatMap (fun selector =>
      (dom.queryTexts selector).flatMap (fun text =>
        WARNING_PATTERNS.filterMap (fun pat =>
          if jsIncludes text.toLower pat.toLower then
            some { type := SignalKind.warning,
                   severity := AlertLevel.DEFCON5,
                   message := "LinkedIn warning detected: \x22" ++ pat ++ "\x22",
                   timestamp := dom.now }
          else none)))
  let captchaSignals :=
    if detectCaptcha dom then
      [{ type := SignalKind.warning, severity := AlertLevel.DEFCON5,
         message := "CAPTCHA challenge detected", timestamp := dom.now }]
    else []
  let disabledSignals :=
    if detectDisabledActions dom then
      [{ type := SignalKind.warning, severity := AlertLevel.DEFCON4,
         message := "Action buttons appear disabled", timestamp := dom.now }]
    else []
  let checkpointSignals :=
    if jsIncludes dom.locationHref "checkpoint" ||
        jsIncludes dom.locationHref "security" then
      [{ type := SignalKind.warning, severity := AlertLevel.DEFCON5,
         message := "Redirected to security checkpoint", timestamp := dom.now }]
    else []
  patternSignals ++ captchaSignals ++ disabledSignals ++ checkpointSignals

/-- `initializeBaselines` (part_004 lines 55-59), as a lookup list. -/
def baselinePerformance : List (String × Int) :=
  [("pageLoad", 3000), ("actionComplete", 2000), ("networkRequest", 1500)]

/-- `this.baselinePerformance.get(key)`. -/
def baselineGet (key : String) : Option Int :=
  (baselinePerformance.find? (fun p => p.1 == key)).map (·.2)

/-- `DetectionSystem.detectBehavioralAnomalies` (part_004 lines 135-186):
takes the current `consecutiveFailures` field, returns its new value
together with the emitted signals (the source mutates the field and
returns the signal list). -/
def detectBehavioralAnomalies (consecutiveFailures : Int)
    (actionDuration : Int) (actionSuccess : Bool) (now : Int) :
    Int × List DetectionSignal :=
  let baseline := (baselineGet "actionComplete").getD 2000
  let cf := if actionSuccess then 0 else consecutiveFailures + 1
  let failureSignals :=
    if 3 ≤ cf then
      [{ type := SignalKind.error, severity := AlertLevel.DEFCON4,
         message := toString cf ++ " consecutive action failures detected",
         timestamp := now }]
    else []
  let slowSignals :=
    if baseline * 3 < actionDuration then
      [{ type := SignalKind.performance, severity := AlertLevel.DEFCON4,
         message := "Action took " ++ toString actionDuration ++ "ms (3x normal)",
         timestamp := now }]
    else []
  let fastSignals :=
    if actionSuccess ∧ actionDuration < 500 then
      [{ type := SignalKind.pattern, severity := AlertLevel.DEFCON3,
         message := "Suspiciously fast action completion (possible shadow ban)",
         timestamp := now }]
    else []
  (cf, failureSignals ++ slowSignals ++ fastSignals)

/-- An action-outcome report fed to `detectBehavioralAnomalies`:
duration in ms and success flag. -/
structure ActionReport where
  duration : Int
  success : Bool
deriving DecidableEq, Repr

/-- The `consecutiveFailures` field after a fresh `DetectionSystem`
(initialized to 0, part_004 line 18) has processed a list of reports. -/
def runConsecutiveFailures (reports : List ActionReport) : Int :=
  reports.foldl
    (fun cf r => (detectBehavioralAnomalies cf r.duration r.success 0).1) 0

/-- Number of reports in the run of failures at the head of the list
(0 as soon as a success is hit). -/
def leadingFailures : List ActionReport → Int
  | [] => 0
  | r :: rs => if r.success then 0 else leadingFailures rs + 1

/-- Number of failures since the last success in the list, current
report included: the length of the maximal failure run at the end. -/
def trailingFailures (reports : List ActionReport) : Int :=
  leadingFailures reports.reverse

/-- Whether a signal list contains the consecutive-failure signal (the
only `error`-kind signal `detectBehavioralAnomalies` can emit). -/
def hasConsecutiveFailureSignal (signals : List DetectionSignal) : Bool :=
  signals.any (fun s => s.type == SignalKind.error)

/-- `DetectionSystem.recordActionTime` (part_004 lines 339-345): push the
timestamp, then `shift()` the oldest entry out when the buffer exceeds
20. -/
def recordActionTime (lastActionTimes : List Int) (timestamp : Int) :
    List Int :=
  let times := lastActionTimes ++ [timestamp]
  if 20 < times.length then times.drop 1 else times

/-- The inter-action intervals computed by `detectPatternRisks`
(part_004 lines 226-229): `times[i] - times[i-1]` for `i = 1..`. -/
def patternIntervals (lastActionTimes : List Int) : List Int :=
  List.zipWith (fun b a => b - a) lastActionTimes.tail lastActionTimes

/-- The guard of the timing-regularity check in `detectPatternRisks`
(part_004 line 225): `this.lastActionTimes.length >= 5`. -/
def timingCheckActive (lastActionTimes : List Int) : Bool :=
  decide (5 ≤ lastActionTimes.length)

/-! ## HumanizationEngine (src/src/core/humanization-engine.ts)

Delays are modelled over `Rat`; the three `cryptoRandomRange` calls of
`calculateActionDelay` appear as explicit draw parameters (the claims
quantify over every outcome of the draws). -/

/-- The `baseDelay` range of `getTimingConfig`
(humanization-engine.ts lines 34-107). -/
def baseDelay : SpeedMode → Rat × Rat
  | SpeedMode.ULTRA_SLOW => (45000, 75000)
  | SpeedMode.SLOW => (35000, 55000)
  | SpeedMode.MEDIUM => (25000, 45000)
  | SpeedMode.NORMAL => (20000, 40000)

/-- `calculateFatigueMultiplier` (humanization-engine.ts lines 180-188),
a function of `actionsThisSession`. -/
def calculateFatigueMultiplier (actionsThisSession : Int) : Rat :=
  if actionsThisSession ≤ 10 then 1
  else if actionsThisSession ≤ 20 then 11 / 10
  else if actionsThisSession ≤ 30 then 5 / 4
  else if actionsThisSession ≤ 40 then 7 / 5
  else 3 / 2

/-- `calculateDailyRhythmMultiplier` (humanization-engine.ts lines
194-203), a function of `new Date().getHours()`. -/
def calculateDailyRhythmMultiplier (hour : Int) : Rat :=
  if 9 ≤ hour ∧ hour < 11 then 1
  else if 11 ≤ hour ∧ hour < 13 then 13 / 10
  else if 13 ≤ hour ∧ hour < 15 then 1
  else if 15 ≤ hour ∧ hour < 17 then 6 / 5
  else if 17 ≤ hour ∧ hour < 21 then 7 / 5
  else 2

/-- `calculateActionDelay` (humanization-engine.ts lines 113-137).
`baseDraw` models `cryptoRandomRange(min, max)` on the `baseDelay`
range of the tier, `variationDraw` models
`cryptoRandomRange(-0.3*delay, 0.3*delay)`, and `entropyDraw` models
`cryptoRandomRange(-2000, 2000)`; the final line is
`Math.max(delay, 15000)`. -/
def calculateActionDelay (speedMode : SpeedMode)
    (actionsThisSession hour : Int)
    (baseDraw variationDraw entropyDraw : Rat) : Rat :=
  let _range := baseDelay speedMode
  let delay := baseDraw
  let delay := delay + variationDraw
  let delay := delay * calculateFatigueMultiplier actionsThisSession
  let delay := delay * calculateDailyRhythmMultiplier hour
  let delay := delay + entropyDraw
  max delay 15000

/-! ## Theorems -/

/-- Claim C1: for the under-3-months tier, `getWarmupConfig` returns zero
max actions per day and zero max comments per day for every elapsed-day
value (including 0 and negative), and `canPerformAction` returns
`allowed = false` for every action kind and every combination of
`actionsToday`, `commentsToday`, `connectionDegree` and speed tier. -/
theorem underThreeMonths_always_blocked
    (day actionsToday commentsToday connectionDegree : Int)
    (kind : ActionKind) (speed : SpeedMode) :
    (getWarmupConfig UNDER_3_MONTHS day).maxActionsPerDay = 0 ∧
    (getWarmupConfig UNDER_3_MONTHS day).maxCommentsPerDay = 0 ∧
    (canPerformAction UNDER_3_MONTHS day kind actionsToday commentsToday
        connectionDegree speed).allowed = false := by
  have hc : getWarmupConfig UNDER_3_MONTHS day =
      { maxActionsPerDay := 0, maxCommentsPerDay := 0, minActionSpread := 24,
        allowedSpeed := [], restrictedToConnections := 1,
        requiresManualApproval := true } := by
    simp [getWarmupConfig]
  refine ⟨by rw [hc], by rw [hc], ?_⟩
  unfold canPerformAction
  rw [hc]
  dsimp only
  split
  · rfl
  split
  · rfl
  split
  · rfl
  split
  · rfl
  split
  · rfl
  next h => exact absurd rfl h

/-- Claim C2: for every speed tier, session state, outcome of the three
random draws, fatigue level and wall-clock hour, `calculateActionDelay`
returns at least 15,000 ms. -/
theorem calculateActionDelay_floor (speedMode : SpeedMode)
    (actionsThisSession hour : Int)
    (baseDraw variationDraw entropyDraw : Rat) :
    15000 ≤ calculateActionDelay speedMode actionsThisSession hour
      baseDraw variationDraw entropyDraw := by
  unfold calculateActionDelay
  exact le_max_right _ _

/-- Claim C4 counterexample: with a warm-up start one day in the future,
`calculateCurrentDay` returns 0, while `max(1, floor((now-start)/86400000)+1)`
is 1; the computed day number is below 1. -/
theorem calculateCurrentDay_no_clamp_counterexample :
    calculateCurrentDay (1000 * 60 * 60 * 24) 0 = 0 ∧
    max 1 (((0 : Int) - 1000 * 60 * 60 * 24).fdiv (1000 * 60 * 60 * 24) + 1) = 1 ∧
    ¬ (1 ≤ calculateCurrentDay (1000 * 60 * 60 * 24) 0) := by decide

/-- Claim C4 (amended): `calculateCurrentDay` computes
`floor((now - warmupStart)/86400000) + 1` with no lower clamp; whenever
the start is not in the future this coincides with
`max(1, floor((now - warmupStart)/86400000) + 1)` and is at least 1 (for
a start in the future the value can be 0 or negative). -/
theorem calculateCurrentDay_eq_max_of_started (warmupStart now : Int)
    (h : warmupStart ≤ now) :
    calculateCurrentDay warmupStart now =
      max 1 ((now - warmupStart).fdiv (1000 * 60 * 60 * 24) + 1) ∧
    1 ≤ calculateCurrentDay warmupStart now := by
  have h0 : 0 ≤ (now - warmupStart).fdiv (1000 * 60 * 60 * 24) :=
    Int.fdiv_nonneg (by omega) (by norm_num)
  unfold calculateCurrentDay
  constructor
  · exact (max_eq_right (by omega)).symm
  · omega

/-- Witness for `calculateCurrentDay_eq_max_of_started` at
`warmupStart = 0`, `now = 0`. -/
theorem calculateCurrentDay_eq_max_witness :
    calculateCurrentDay 0 0 =
      max 1 (((0 : Int) - 0).fdiv (1000 * 60 * 60 * 24) + 1) ∧
    1 ≤ calculateCurrentDay 0 0 :=
  calculateCurrentDay_eq_max_of_started 0 0 (by decide)

/-- A member of `if c then l else []` is a member of `l`. -/
theorem mem_of_mem_ite_nil {α : Type} {c : Prop} [Decidable c] {l : List α}
    {a : α} (h : a ∈ (if c then l else [])) : a ∈ l := by
  by_cases hc : c
  · rwa [if_pos hc] at h
  · rw [if_neg hc] at h
    exact absurd h (List.not_mem_nil a)

/-- A page whose like/comment controls are majority-disabled, with no
warning text, no CAPTCHA, and a non-checkpoint URL. -/
def domDisabledControls : Dom :=
  { queryTexts := fun _ => [], actionButtonsDisabled := [true],
    locationHref := "https://www.linkedin.com/feed/", now := 0 }

/-- Claim C3 counterexample: on `domDisabledControls`,
`detectDOMWarnings` produces exactly the disabled-interactive-controls
signal, and its severity is `DEFCON4`, not the maximum `DEFCON5`. -/
theorem detectDOMWarnings_defcon4_counterexample :
    detectDOMWarnings domDisabledControls =
      [{ type := SignalKind.warning, severity := AlertLevel.DEFCON4,
         message := "Action buttons appear disabled", timestamp := 0 }] ∧
    AlertLevel.DEFCON4 ≠ AlertLevel.DEFCON5 := by
  constructor
  · decide
  · decide

/-- Claim C3 (amended): every signal produced by `detectDOMWarnings` —
warning-phrase matches, CAPTCHA markers, and the security-checkpoint
location check — carries the maximum severity `DEFCON5`, except the
disabled-interactive-controls signal, which carries `DEFCON4`. -/
theorem detectDOMWarnings_severities (dom : Dom) (s : DetectionSignal)
    (hs : s ∈ detectDOMWarnings dom) :
    s.severity = AlertLevel.DEFCON5 ∨
    (s.severity = AlertLevel.DEFCON4 ∧
     s.message = "Action buttons appear disabled") := by
  unfold detectDOMWarnings at hs
  dsimp only at hs
  simp only [List.mem_append] at hs
  rcases hs with ((hpat | hcap) | hdis) | hcp
  · simp only [List.mem_flatMap, List.mem_filterMap] at hpat
    obtain ⟨sel, -, text, -, pat, -, heq⟩ := hpat
    split at heq
    · cases heq
      exact Or.inl rfl
    · exact absurd heq (Option.noConfusion)
  · have := List.mem_singleton.mp (mem_of_mem_ite_nil hcap)
    subst this
    exact Or.inl rfl
  · have := List.mem_singleton.mp (mem_of_mem_ite_nil hdis)
    subst this
    exact Or.inr ⟨rfl, rfl⟩
  · have := List.mem_singleton.mp (mem_of_mem_ite_nil hcp)
    subst this
    exact Or.inl rfl

/-- Witness for `detectDOMWarnings_severities`: the concrete signal
emitted on `domDisabledControls`. -/
theorem detectDOMWarnings_severities_witness :
    ({ type := SignalKind.warning, severity := AlertLevel.DEFCON4,
       message := "Action buttons appear disabled", timestamp := 0 } :
        DetectionSignal).severity = AlertLevel.DEFCON5 ∨
    (({ type := SignalKind.warning, severity := AlertLevel.DEFCON4,
        message := "Action buttons appear disabled", timestamp := 0 } :
         DetectionSignal).severity = AlertLevel.DEFCON4 ∧
     ({ type := SignalKind.warning, severity := AlertLevel.DEFCON4,
        message := "Action buttons appear disabled", timestamp := 0 } :
         DetectionSignal).message = "Action buttons appear disabled") :=
  detectDOMWarnings_severities domDisabledControls _ (by decide)

/-- Claim C5 counterexample: against the 3-6-months week-1 config
(whose `maxCommentsPerDay` is 0), a comment request with every other
counter in range (0 actions of 5, degree 1, allowed speed) is denied
with the per-kind comment-limit reason, not the "comments disabled"
reason. -/
theorem commentZeroCap_reason_counterexample :
    canPerformAction THREE_TO_SIX_MONTHS 1 ActionKind.comment 0 0 1
        SpeedMode.ULTRA_SLOW =
      { allowed := false,
        reason := some "Daily comment limit reached (0)." } ∧
    ("Daily comment limit reached (0)." : String) ≠
      "Comments disabled during early warm-up phase (too risky for new accounts)." := by
  constructor
  · decide
  · decide

/-- Claim C5 (amended): against any config with `maxCommentsPerDay = 0`
and a nonnegative comment counter, `canPerformAction` on a comment
always denies; whenever the daily action cap is not yet reached, the
reason is the per-kind "Daily comment limit reached (0)." message — the
per-kind-cap rule (`commentsToday >= maxCommentsPerDay`) fires before
the dedicated comments-disabled rule, which is unreachable for
nonnegative counters. -/
theorem commentZeroCap_denied (age : String)
    (day actionsToday commentsToday connectionDegree : Int)
    (speed : SpeedMode)
    (hcap : (getWarmupConfig age day).maxCommentsPerDay = 0)
    (hc : 0 ≤ commentsToday) :
    (canPerformAction age day ActionKind.comment actionsToday commentsToday
        connectionDegree speed).allowed = false ∧
    (actionsToday < (getWarmupConfig age day).maxActionsPerDay →
      (canPerformAction age day ActionKind.comment actionsToday commentsToday
          connectionDegree speed).reason =
        some "Daily comment limit reached (0).") := by
  unfold canPerformAction
  dsimp only
  rcases le_or_lt (getWarmupConfig age day).maxActionsPerDay actionsToday with
    hge | hlt
  · rw [if_pos hge]
    exact ⟨rfl, fun hl => absurd hge (not_le.mpr hl)⟩
  · rw [if_neg (not_le.mpr hlt)]
    rw [if_pos ⟨rfl, by rw [hcap]; exact hc⟩]
    refine ⟨rfl, fun _ => ?_⟩
    dsimp only
    rw [hcap]
    rfl

/-- Witness for `commentZeroCap_denied` at the 3-6-months tier, day 1,
with all counters at 0, degree 1, and the allowed ultra-slow speed. -/
theorem commentZeroCap_denied_witness :
    (canPerformAction THREE_TO_SIX_MONTHS 1 ActionKind.comment 0 0 1
        SpeedMode.ULTRA_SLOW).allowed = false ∧
    (0 < (getWarmupConfig THREE_TO_SIX_MONTHS 1).maxActionsPerDay →
      (canPerformAction THREE_TO_SIX_MONTHS 1 ActionKind.comment 0 0 1
          SpeedMode.ULTRA_SLOW).reason =
        some "Daily comment limit reached (0).") :=
  commentZeroCap_denied THREE_TO_SIX_MONTHS 1 0 0 1 SpeedMode.ULTRA_SLOW
    (by decide) (by decide)

/-- Claim C6 counterexample: for the 6-12-months tier 10 days after
warm-up end (day 24, total 14), `getPostWarmupLimits` returns 75%, not
the 60% step the claim asserts for the first 30 days. -/
theorem postWarmupLimits_counterexample :
    getPostWarmupLimits SIX_TO_TWELVE_MONTHS 24 = (75, 75) ∧
    ((75 : Int), (75 : Int)) ≠ ((60 : Int), (60 : Int)) := by
  constructor
  · decide
  · decide

/-- Claim C6 (amended): with `d` days elapsed since warm-up end, the
post-warm-up ramp is 60% (d ≤ 30), 80% (d ≤ 60), then 100% for the
3-6-months tier; 75% (d ≤ 30) then 100% for the 6-12-months tier; and
100% immediately for every other tier. -/
theorem postWarmupLimits_ramp (d : Int) :
    getPostWarmupLimits THREE_TO_SIX_MONTHS (28 + d) =
      (if d ≤ 30 then ((60 : Int), (60 : Int))
       else if d ≤ 60 then (80, 80) else (100, 100)) ∧
    getPostWarmupLimits SIX_TO_TWELVE_MONTHS (14 + d) =
      (if d ≤ 30 then ((75 : Int), (75 : Int)) else (100, 100)) ∧
    getPostWarmupLimits UNDER_3_MONTHS (28 + d) = (100, 100) ∧
    getPostWarmupLimits ONE_TO_TWO_YEARS (7 + d) = (100, 100) ∧
    getPostWarmupLimits OVER_TWO_YEARS (3 + d) = (100, 100) := by
  unfold getPostWarmupLimits
  have e1 : 28 + d - 28 = d := by ring
  have e2 : 14 + d - 14 = d := by ring
  refine ⟨?_, ?_, ?_, ?_, ?_⟩
  · rw [if_pos rfl]
    dsimp only
    rw [e1]
  · rw [if_neg (by decide), if_pos rfl]
    dsimp only
    rw [e2]
  · rw [if_neg (by decide), if_neg (by decide)]
  · rw [if_neg (by decide), if_neg (by decide)]
  · rw [if_neg (by decide), if_neg (by decide)]

/-- An account-age string outside the five declared tiers. -/
def legacyAge : String := "LEGACY_ACCOUNT"

/-- Claim C7 counterexample: for an account-age value outside the five
known tiers, `getWarmupConfig` returns the fallback profile with 20
actions per day — strictly more permissive than the under-3-months
zero-cap profile of the under-3-months tier, so not the strictest
known profile. -/
theorem unknownAge_not_strictest_counterexample :
    getWarmupConfig legacyAge 1 = fallbackWarmupConfig ∧
    (getWarmupConfig legacyAge 1).maxActionsPerDay = 20 ∧
    (getWarmupConfig UNDER_3_MONTHS 1).maxActionsPerDay = 0 ∧
    ¬ ((getWarmupConfig legacyAge 1).maxActionsPerDay ≤
       (getWarmupConfig UNDER_3_MONTHS 1).maxActionsPerDay) := by
  refine ⟨by decide, by decide, by decide, by decide⟩

/-- Claim C7 (amended): for an account-age value outside the five known
tiers, every warm-up query totally falls through to its default case:
`getWarmupConfig` returns the fixed fallback profile (20 actions, 5
comments, 4-hour spread, slow speed only, degree ≤ 2, no approval) — a
middling profile, not the strictest — `getTotalWarmupDays` returns 14,
and `getPostWarmupLimits` returns 100%. -/
theorem unknownAge_fallback (age : String) (day : Int)
    (h : age ∉ knownAccountAges) :
    getWarmupConfig age day = fallbackWarmupConfig ∧
    getTotalWarmupDays age = some 14 ∧
    getPostWarmupLimits age day = (100, 100) := by
  simp only [knownAccountAges, List.mem_cons, List.not_mem_nil, or_false] at h
  push_neg at h
  obtain ⟨h1, h2, h3, h4, h5⟩ := h
  refine ⟨?_, ?_, ?_⟩ <;>
    simp [getWarmupConfig, getTotalWarmupDays, getPostWarmupLimits,
      fallbackWarmupConfig, h1, h2, h3, h4, h5]

/-- Witness for `unknownAge_fallback` at the unknown value
`"LEGACY_ACCOUNT"`, day 1. -/
theorem unknownAge_fallback_witness :
    getWarmupConfig legacyAge 1 = fallbackWarmupConfig ∧
    getTotalWarmupDays legacyAge = some 14 ∧
    getPostWarmupLimits legacyAge 1 = (100, 100) :=
  unknownAge_fallback legacyAge 1 (by decide)

/-- The `consecutiveFailures` update of `detectBehavioralAnomalies`:
reset to 0 on success, otherwise incremented. -/
theorem detectBehavioralAnomalies_fst (cf actionDuration : Int)
    (actionSuccess : Bool) (now : Int) :
    (detectBehavioralAnomalies cf actionDuration actionSuccess now).1 =
      if actionSuccess then 0 else cf + 1 := rfl

/-- Unfolding `runConsecutiveFailures` over a final report. -/
theorem runConsecutiveFailures_append (l : List ActionReport)
    (r : ActionReport) :
    runConsecutiveFailures (l ++ [r]) =
      if r.success then 0 else runConsecutiveFailures l + 1 := by
  unfold runConsecutiveFailures
  rw [List.foldl_append]
  rfl

/-- Unfolding `trailingFailures` over a final report. -/
theorem trailingFailures_append (l : List ActionReport) (r : ActionReport) :
    trailingFailures (l ++ [r]) =
      if r.success then 0 else trailingFailures l + 1 := by
  unfold trailingFailures
  rw [List.reverse_append]
  rfl

/-- The `consecutiveFailures` counter of the detector equals the length of the
trailing failure run of the reports processed so far. -/
theorem runConsecutiveFailures_eq_trailing (l : List ActionReport) :
    runConsecutiveFailures l = trailingFailures l := by
  induction l using List.reverseRecOn with
  | nil => rfl
  | append_singleton l r ih =>
      rw [runConsecutiveFailures_append, trailingFailures_append, ih]

/-- The consecutive-failure signal is in the output of
`detectBehavioralAnomalies` exactly when the updated counter is ≥ 3. -/
theorem hasConsecutiveFailureSignal_iff (cf actionDuration : Int)
    (actionSuccess : Bool) (now : Int) :
    hasConsecutiveFailureSignal
        (detectBehavioralAnomalies cf actionDuration actionSuccess now).2 =
      decide (3 ≤ if actionSuccess then 0 else cf + 1) := by
  unfold detectBehavioralAnomalies hasConsecutiveFailureSignal
  dsimp only
  by_cases h1 : (3 : Int) ≤ (if actionSuccess = true then 0 else cf + 1) <;>
  by_cases h2 : ((baselineGet "actionComplete").getD 2000) * 3 <
      actionDuration <;>
  by_cases h3 : actionSuccess = true ∧ actionDuration < 500 <;>
    simp [h1, h2, h3]

/-- Claim C8: starting from a fresh detector, feeding report `r` after a
report sequence `l` emits the consecutive-failure signal exactly when
the number of failures since the last success, current report included,
is at least 3; and a successful report resets the counter to zero. -/
theorem consecutiveFailureSignal_spec (l : List ActionReport)
    (r : ActionReport) :
    hasConsecutiveFailureSignal
        (detectBehavioralAnomalies (runConsecutiveFailures l) r.duration
          r.success 0).2 =
      decide (3 ≤ trailingFailures (l ++ [r])) ∧
    (r.success = true → runConsecutiveFailures (l ++ [r]) = 0) := by
  constructor
  · rw [hasConsecutiveFailureSignal_iff, runConsecutiveFailures_eq_trailing,
      trailingFailures_append]
  · intro h
    rw [runConsecutiveFailures_append, h]
    rfl

/-- Witness for `consecutiveFailureSignal_spec`: the 3rd of 3
consecutive failed reports (100 ms each) after a fresh start. -/
theorem consecutiveFailureSignal_spec_witness :
    hasConsecutiveFailureSignal
        (detectBehavioralAnomalies
          (runConsecutiveFailures
            [{ duration := 100, success := false },
             { duration := 100, success := false }])
          ({ duration := 100, success := false } : ActionReport).duration
          ({ duration := 100, success := false } : ActionReport).success
          0).2 =
      decide (3 ≤ trailingFailures
        ([{ duration := 100, success := false },
          { duration := 100, success := false }] ++
         [{ duration := 100, success := false }])) ∧
    (({ duration := 100, success := false } : ActionReport).success = true →
      runConsecutiveFailures
        ([{ duration := 100, success := false },
          { duration := 100, success := false }] ++
         [{ duration := 100, success := false }]) = 0) :=
  consecutiveFailureSignal_spec
    [{ duration := 100, success := false },
     { duration := 100, success := false }]
    { duration := 100, success := false }

/-- Claim C9: every `enable48HourCooldown` call sets the cooldown expiry
to exactly 48 hours after the current time, disables automation, and
increments the stored warning counter by exactly one; starting from a
state with zero warnings, two consecutive calls leave the counter at 2
and `hasPermanentRestrictions` true. -/
theorem enable48HourCooldown_spec (now now2 : Int) (reason reason2 : String)
    (st : LocalStorage) (h : getWarningCount st = 0) :
    (∀ s : LocalStorage,
      (enable48HourCooldown now reason s).cooldownEnd =
        some (now + 48 * 60 * 60 * 1000) ∧
      (enable48HourCooldown now reason s).automationEnabled = some false ∧
      getWarningCount (enable48HourCooldown now reason s) =
        getWarningCount s + 1) ∧
    getWarningCount
        (enable48HourCooldown now2 reason2
          (enable48HourCooldown now reason st)) = 2 ∧
    hasPermanentRestrictions
        (enable48HourCooldown now2 reason2
          (enable48HourCooldown now reason st)) = true := by
  have h' : st.warningCount.getD 0 = 0 := h
  refine ⟨fun s => ⟨rfl, rfl, rfl⟩, ?_, ?_⟩
  · simp only [enable48HourCooldown, getWarningCount, Option.getD_some]
    omega
  · simp only [hasPermanentRestrictions, enable48HourCooldown,
      getWarningCount, Option.getD_some, decide_eq_true_eq]
    omega

/-- Witness for `enable48HourCooldown_spec` starting from empty storage. -/
theorem enable48HourCooldown_spec_witness :
    (∀ s : LocalStorage,
      (enable48HourCooldown 1000 "warning detected" s).cooldownEnd =
        some (1000 + 48 * 60 * 60 * 1000) ∧
      (enable48HourCooldown 1000 "warning detected" s).automationEnabled =
        some false ∧
      getWarningCount (enable48HourCooldown 1000 "warning detected" s) =
        getWarningCount s + 1) ∧
    getWarningCount
        (enable48HourCooldown 2000 "second warning"
          (enable48HourCooldown 1000 "warning detected"
            ⟨none, none, none, none⟩)) = 2 ∧
    hasPermanentRestrictions
        (enable48HourCooldown 2000 "second warning"
          (enable48HourCooldown 1000 "warning detected"
            ⟨none, none, none, none⟩)) = true :=
  enable48HourCooldown_spec 1000 2000 "warning detected" "second warning"
    ⟨none, none, none, none⟩ (by decide)

/-- One `recordActionTime` step caps the buffer length at 20. -/
theorem recordActionTime_length (b : List Int) (t : Int)
    (hb : b.length ≤ 20) :
    (recordActionTime b t).length = min (b.length + 1) 20 := by
  unfold recordActionTime
  dsimp only
  split
  · next hgt =>
      simp only [List.length_append, List.length_cons, List.length_nil,
        List.length_drop] at hgt ⊢
      omega
  · next hle =>
      simp only [List.length_append, List.length_cons, List.length_nil]
        at hle ⊢
      omega

/-- Buffer length after folding `recordActionTime` over any timestamp
sequence, from any in-bounds starting buffer. -/
theorem foldl_recordActionTime_length (ts : List Int) :
    ∀ b : List Int, b.length ≤ 20 →
      (ts.foldl recordActionTime b).length = min (b.length + ts.length) 20 := by
  induction ts with
  | nil =>
      intro b hb
      simp only [List.foldl_nil, List.length_nil]
      omega
  | cons t ts ih =>
      intro b hb
      rw [List.foldl_cons]
      have hstep := recordActionTime_length b t hb
      rw [ih _ (by omega), hstep]
      simp only [List.length_cons]
      omega

/-- Claim C10: after any sequence of `recordActionTime` calls on a fresh
detector the stored buffer holds `min n 20` timestamps — at most 20, the
oldest dropped when a 21st is added — so the timing-regularity statistic
of `detectPatternRisks` is computed over at most 19 inter-action
intervals, and its guard activates exactly once 5 timestamps (4
intervals) have been recorded. -/
theorem recordActionTime_buffer_spec (ts : List Int) (b : List Int)
    (t : Int) (hb : b.length = 20) :
    (ts.foldl recordActionTime []).length = min ts.length 20 ∧
    (ts.foldl recordActionTime []).length ≤ 20 ∧
    (patternIntervals (ts.foldl recordActionTime [])).length ≤ 19 ∧
    timingCheckActive (ts.foldl recordActionTime []) =
      decide (5 ≤ ts.length) ∧
    recordActionTime b t = b.drop 1 ++ [t] := by
  have hlen := foldl_recordActionTime_length ts [] (by simp)
  simp only [List.length_nil, Nat.zero_add] at hlen
  refine ⟨hlen, by omega, ?_, ?_, ?_⟩
  · unfold patternIntervals
    rw [List.length_zipWith, List.length_tail]
    omega
  · unfold timingCheckActive
    rw [hlen]
    rcases le_or_lt 5 ts.length with h | h
    · rw [decide_eq_true (by omega : 5 ≤ min ts.length 20),
        decide_eq_true h]
    · rw [decide_eq_false (by omega : ¬ 5 ≤ min ts.length 20),
        decide_eq_false (by omega : ¬ 5 ≤ ts.length)]
  · unfold recordActionTime
    dsimp only
    rw [if_pos (by simp [hb])]
    rw [List.drop_append_of_le_length (by omega)]

/-- Witness for `recordActionTime_buffer_spec`: 25 recorded timestamps
against a full 20-element buffer. -/
theorem recordActionTime_buffer_spec_witness :
    (((List.range 25).map Int.ofNat).foldl recordActionTime []).length =
      min ((List.range 25).map Int.ofNat).length 20 ∧
    (((List.range 25).map Int.ofNat).foldl recordActionTime []).length ≤ 20 ∧
    (patternIntervals
        (((List.range 25).map Int.ofNat).foldl recordActionTime [])).length ≤
      19 ∧
    timingCheckActive
        (((List.range 25).map Int.ofNat).foldl recordActionTime []) =
      decide (5 ≤ ((List.range 25).map Int.ofNat).length) ∧
    recordActionTime (List.replicate 20 (0 : Int)) 99 =
      (List.replicate 20 (0 : Int)).drop 1 ++ [99] :=
  recordActionTime_buffer_spec ((List.range 25).map Int.ofNat)
    (List.replicate 20 (0 : Int)) 99 (by simp)

end LinkedInExt
